import Mathlib

/-!
Shallow embedding of the autograph-donut-scribe PDF form-filling pipeline.

The embedded functions follow the TypeScript source:
 - `parseDonut`, `callDonutFields` embed the response parsing and the
   unconditional five-field fallback of `callDonut` (pdfService) and
   `detectFields` (the inline variant), which are line-for-line identical.
 - `detectFieldsGate` embeds the credential check at the top of
   `detectFields`; `callDonutGate` records that `callDonut` performs no
   credential check before its network request.
 - `scaleBox` embeds the (unused) pixel→page-point mapping helper.
 - `valueToInsert`, `fieldOps`, `fillTemplate` embed the compositing loop of
   `fillTemplate` / `generateFilledPDF`: the label switch, the signature
   branch with clipping, and the text draw at `(x1+5, height-y2+5)`.
 - `acquireFont` embeds the font fetch try/catch with its HelveticaOblique
   fallback.
 - `processPdfSignal` embeds the completeness outcome of the `processPdf`
   mutation: the zero-fields guard throws (→ 'incomplete' via onError),
   any other completion reports 'complete' via onSuccess.

Machine floats of the source are modelled as rationals; network effects are
modelled by passing the upstream response / fetch outcome as a value.
-/

/-- Personal-data record (PersonalInfo). Optional fields (`middleName`,
`workPhone`) are modelled as strings, absent = empty, matching the
`|| ''` handling at every use site. -/
structure PersonalInfo where
  firstName : String
  middleName : String
  lastName : String
  gender : String
  maritalStatus : String
  cellPhone : String
  workPhone : String
  homeAddress : String
  state : String
  zipCode : String
deriving DecidableEq, Repr

/-- Bounding box `[x1, y1, x2, y2]` in source-image pixel space. -/
abbrev Bbox := ℚ × ℚ × ℚ × ℚ

/-- DetectedField as produced by `callDonut` / `detectFields`. -/
structure DetectedField where
  field : String
  value : String
  bbox : Bbox
  confidence : ℚ
deriving DecidableEq, Repr

/-- One record of the array-shaped upstream response: `{word?, bbox?, confidence?}`. -/
structure DonutArrayItem where
  word : Option String
  bbox : Option Bbox
  confidence : Option ℚ
deriving DecidableEq, Repr

/-- One entry value of the object-shaped upstream response: `{bbox?, confidence?}`. -/
structure DonutObjectEntry where
  bbox : Option Bbox
  confidence : Option ℚ
deriving DecidableEq, Repr

/-- The upstream JSON response: an array of items, an object keyed by label,
or anything else (null, number, ...). An empty JS array takes the object
branch in the source, where `Object.keys` yields nothing, so both branches
parse it to zero fields, as `.arr []` does here. -/
inductive DonutResult where
  | arr (items : List DonutArrayItem)
  | obj (entries : List (String × DonutObjectEntry))
  | other
deriving DecidableEq, Repr

/-- ASCII lower-casing, modelling the JS `toLowerCase()` applied to the
ASCII field labels this pipeline handles. -/
def lowerAscii (s : String) : String := ⟨s.data.map Char.toLower⟩

/-- `item.confidence || 0.9`: a missing confidence, and the falsy value 0,
default to 0.9. -/
def confOrDefault : Option ℚ → ℚ
  | some c => if c = 0 then 9/10 else c
  | none => 9/10

/-- Response parsing of `callDonut` / `detectFields`: array items need a
truthy `word` (nonempty string) and a `bbox`; object entries need a `bbox`.
Labels are lower-cased; `value` starts empty. Entries missing a bbox are
dropped silently. -/
def parseDonut : DonutResult → List DetectedField
  | .arr items => items.filterMap fun item =>
      match item.word, item.bbox with
      | some w, some b =>
          if w = "" then none
          else some { field := lowerAscii w, value := "", bbox := b,
                      confidence := confOrDefault item.confidence }
      | _, _ => none
  | .obj entries => entries.filterMap fun e =>
      match e.2.bbox with
      | some b => some { field := lowerAscii e.1, value := "", bbox := b,
                         confidence := confOrDefault e.2.confidence }
      | none => none
  | .other => []

/-- The hard-coded fallback field set substituted when parsing yields zero
fields. -/
def basicFallbackFields : List DetectedField :=
  [ { field := "first_name", value := "", bbox := (100, 150, 200, 170), confidence := 9/10 },
    { field := "last_name",  value := "", bbox := (250, 150, 350, 170), confidence := 9/10 },
    { field := "phone",      value := "", bbox := (100, 200, 250, 220), confidence := 9/10 },
    { field := "address",    value := "", bbox := (100, 250, 400, 270), confidence := 9/10 },
    { field := "signature",  value := "", bbox := (100, 400, 250, 450), confidence := 9/10 } ]

/-- `callDonut` after a successful upstream call: parse the response, then
substitute the fallback set if and only if zero fields were parsed. -/
def callDonutFields (resp : DonutResult) : List DetectedField :=
  if (parseDonut resp).isEmpty then basicFallbackFields else parseDonut resp

/-- Outcome of the pre-network credential handling of a detection call. -/
inductive DetectStep where
  | authError (msg : String)
  | networkCall (token : String)
deriving DecidableEq, Repr

/-- The credential gate at the top of `detectFields`: a falsy (empty) token
throws before the fetch; any nonempty token proceeds to the network call. -/
def detectFieldsGate (hfToken : String) : DetectStep :=
  if hfToken = "" then .authError "Please enter your Hugging Face API token first"
  else .networkCall hfToken

/-- `callDonut` itself performs no credential validation: its body begins
with the fetch, so every token value reaches the network. -/
def callDonutGate (token : String) : DetectStep := .networkCall token

/-- The unused coordinate-mapping helper `scaleBox` of pdfService: linear
per-axis scaling by pageDim/imageDim with the y-axis flipped, returning
`(xPt, yPt, widthPt, heightPt)`. -/
def scaleBox (box : Bbox) (imgW imgH pdfW pdfH : ℚ) : Bbox :=
  match box with
  | (x0, y0, x1, y1) =>
    ((x0 / imgW) * pdfW,
     pdfH - (y1 / imgH) * pdfH,
     ((x1 - x0) / imgW) * pdfW,
     ((y1 - y0) / imgH) * pdfH)

/-- The embedded display font of the output document. -/
inductive PdfFont where
  | custom
  | helveticaOblique
deriving DecidableEq, Repr

/-- Outcome of the display-font network fetch: an HTTP success whose body is
or is not valid font bytes, a non-success HTTP status, or a network error. -/
inductive FontFetchResult where
  | ok (validFontBytes : Bool)
  | httpError (status : Nat)
  | networkError
deriving DecidableEq, Repr

/-- The font try/catch of `fillTemplate` / `generateFilledPDF`: only a
successful fetch with embeddable bytes yields the custom font; a non-ok
status throws inside the try, a network error rejects the fetch, and
malformed bytes make `embedFont` throw — all are caught and fall back to
HelveticaOblique. -/
def acquireFont : FontFetchResult → PdfFont
  | .ok true => .custom
  | .ok false => .helveticaOblique
  | .httpError _ => .helveticaOblique
  | .networkError => .helveticaOblique

/-- The label switch of the compositing loop: the raw label is lower-cased
and compared against the enumerated case labels; anything else leaves the
value empty. `today` stands for `new Date().toLocaleDateString()`. The
`signature` case is handled outside this switch (see `fieldOps`). -/
def valueToInsert (label : String) (p : PersonalInfo) (today : String) : String :=
  match lowerAscii label with
  | "first_name" | "firstname" => p.firstName
  | "middle_name" | "middlename" => p.middleName
  | "last_name" | "lastname" => p.lastName
  | "gender" => p.gender
  | "marital_status" | "maritalstatus" => p.maritalStatus
  | "phone" | "cell_phone" | "cellphone" => p.cellPhone
  | "work_phone" | "workphone" => p.workPhone
  | "address" | "home_address" | "homeaddress" => p.homeAddress
  | "state" => p.state
  | "zip" | "zipcode" | "zip_code" => p.zipCode
  | "date" => today
  | _ => ""

/-- A drawing operation on the first page, standing for `page.drawText` /
`page.drawImage` with the arguments the source passes. -/
inductive DrawOp where
  | text (s : String) (x y size : ℚ) (color : ℚ × ℚ × ℚ) (font : PdfFont)
  | image (x y w h : ℚ)
deriving DecidableEq, Repr

/-- One iteration of the compositing loop over `fields`, for a single
detected field. `sig` is the signature data URL if one was supplied;
`decodeOk` tells whether `atob`/`embedPng` succeed on it (their failure is
caught per-field and skipped). A `signature` field draws the clipped image;
any other field draws its switched value at `(x1+5, height-y2+5)` in font
size 14 and ink `rgb(0.2, 0.2, 0.8)` — unless the value is empty (falsy),
in which case nothing is drawn. -/
def fieldOps (f : DetectedField) (p : PersonalInfo) (sig : Option String)
    (decodeOk : String → Bool) (pageHeight : ℚ) (today : String) (font : PdfFont) :
    List DrawOp :=
  match f.bbox with
  | (x1, y1, x2, y2) =>
    if lowerAscii f.field = "signature" then
      match sig with
      | some s =>
          if decodeOk s then
            [DrawOp.image (x1 + 5) (pageHeight - y2 - 5)
              (min (x2 - x1 - 10) 150) (min (y2 - y1 - 10) 50)]
          else []
      | none => []
    else
      let v := valueToInsert f.field p today
      if v = "" then []
      else [DrawOp.text v (x1 + 5) (pageHeight - y2 + 5) 14 (1/5, 1/5, 4/5) font]

/-- The compositing pass of `fillTemplate`: acquire the font (never fails
outward), then run the loop over all detected fields, collecting the draw
operations performed on the page. -/
def fillTemplate (fields : List DetectedField) (p : PersonalInfo) (sig : Option String)
    (decodeOk : String → Bool) (pageHeight : ℚ) (today : String)
    (fontFetch : FontFetchResult) : List DrawOp :=
  fields.flatMap fun f => fieldOps f p sig decodeOk pageHeight today (acquireFont fontFetch)

/-- Full compositing run including step 1 (document load, the only fatal
step before the loop): `none` stands for `MalformedDocumentError`, `some ops`
for a successfully serialized output document. -/
def fillTemplateRun (loadOk : Bool) (fields : List DetectedField) (p : PersonalInfo)
    (sig : Option String) (decodeOk : String → Bool) (pageHeight : ℚ) (today : String)
    (fontFetch : FontFetchResult) : Option (List DrawOp) :=
  if loadOk then some (fillTemplate fields p sig decodeOk pageHeight today fontFetch)
  else none

/-- The surfaced tri-state processing outcome. -/
inductive ProcessingResult where
  | complete
  | incomplete
deriving DecidableEq, Repr

/-- Completeness signal of the `processPdf` mutation after a successful
detection call: `detectedFields.length === 0` throws ("No form fields could
be detected"), which `onError` surfaces as 'incomplete'; every other run
reaches `onSuccess`, which surfaces 'complete'. -/
def processPdfSignal (detectedFields : List DetectedField) : ProcessingResult :=
  if detectedFields.isEmpty then .incomplete else .complete

/-- The all-empty personal record. -/
def emptyPersonalInfo : PersonalInfo :=
  { firstName := "", middleName := "", lastName := "", gender := "",
    maritalStatus := "", cellPhone := "", workPhone := "", homeAddress := "",
    state := "", zipCode := "" }

/-- An object-shaped upstream response that genuinely detects the same five
fields the fallback substitutes. -/
def genuineFiveFieldResponse : DonutResult :=
  .obj [ ("first_name", { bbox := some (100, 150, 200, 170), confidence := some (9/10) }),
         ("last_name",  { bbox := some (250, 150, 350, 170), confidence := some (9/10) }),
         ("phone",      { bbox := some (100, 200, 250, 220), confidence := some (9/10) }),
         ("address",    { bbox := some (100, 250, 400, 270), confidence := some (9/10) }),
         ("signature",  { bbox := some (100, 400, 250, 450), confidence := some (9/10) }) ]

/-- A personal record holding only a first name. -/
def janePersonal : PersonalInfo :=
  { emptyPersonalInfo with firstName := "Jane" }

/-- The external API's expected token shape `hf_*` as described by the spec.
No function in the source performs this check; the definition exists to state
which credentials are malformed. -/
def matchesHfTokenShape (t : String) : Bool := "hf_".data.isPrefixOf t.data

/-- C7: scaleBox is linear per axis (scaling by the ratio of page dimension
to image dimension) and orientation-inverting: for positive image dimensions,
the returned tuple equals the per-axis linear formula; a box whose top edge
is at y1 = 0 has its mapped top (y + height) at pageHeight, and a box whose
bottom edge is at y2 = imageHeight has its mapped y at 0. Being a total
function on ℚ, the mapping never fails on out-of-range input. -/
theorem scaleBox_linear_and_flips (x1 y1 x2 y2 imgW imgH pdfW pdfH : ℚ)
    (_hW : 0 < imgW) (hH : 0 < imgH) :
    scaleBox (x1, y1, x2, y2) imgW imgH pdfW pdfH =
      (x1 * (pdfW / imgW), pdfH - y2 * (pdfH / imgH),
       (x2 - x1) * (pdfW / imgW), (y2 - y1) * (pdfH / imgH)) ∧
    (y1 = 0 →
      (scaleBox (x1, y1, x2, y2) imgW imgH pdfW pdfH).2.1 +
        (scaleBox (x1, y1, x2, y2) imgW imgH pdfW pdfH).2.2.2 = pdfH) ∧
    (y2 = imgH →
      (scaleBox (x1, y1, x2, y2) imgW imgH pdfW pdfH).2.1 = 0) := by
  refine ⟨?_, ?_, ?_⟩
  · simp only [scaleBox, Prod.mk.injEq]
    refine ⟨by ring, by ring, by ring, by ring⟩
  · intro h
    simp only [scaleBox, h]
    ring
  · intro h
    simp only [scaleBox, h]
    rw [div_self (ne_of_gt hH)]
    ring

/-- Witness for C7 at the geometry of a 612×792 pt page rasterized at
scale 2 (1224×1584 px) and a box spanning the full image height. -/
theorem scaleBox_linear_and_flips_witness :
    scaleBox ((100:ℚ), 0, 200, 1584) 1224 1584 612 792 =
      (100 * (612 / 1224), 792 - 1584 * (792 / 1584),
       (200 - 100) * (612 / 1224), (1584 - 0) * (792 / 1584)) ∧
    ((0:ℚ) = 0 →
      (scaleBox ((100:ℚ), 0, 200, 1584) 1224 1584 612 792).2.1 +
        (scaleBox ((100:ℚ), 0, 200, 1584) 1224 1584 612 792).2.2.2 = 792) ∧
    ((1584:ℚ) = 1584 →
      (scaleBox ((100:ℚ), 0, 200, 1584) 1224 1584 612 792).2.1 = 0) :=
  scaleBox_linear_and_flips 100 0 200 1584 1224 1584 612 792 (by norm_num) (by norm_num)

/-- C1: the compositing loop does NOT divide detected bounding-box pixel
coordinates by the rasterization scale factor. On a 612×792 pt page
rasterized at scale 2 (image 1224×1584 px), the detected field
`first_name` at pixel bbox [100, 150, 200, 170] is drawn at x = 100 + 5 =
105 and y = 792 - 170 + 5 = 627 — the raw pixel coordinates with only the
axis flip — whereas the scale-correct mapping (computed by the unused
`scaleBox` helper) puts the box at x = 50 (so 55 with the 5 pt offset) and
y = 707 (so 712 with the offset). -/
theorem fillTemplate_draws_raw_pixel_coords :
    fillTemplate [⟨"first_name", "", (100, 150, 200, 170), 9/10⟩]
        janePersonal none (fun _ => false) 792 "" FontFetchResult.networkError =
      [DrawOp.text "Jane" 105 627 14 (1/5, 1/5, 4/5) PdfFont.helveticaOblique] ∧
    (scaleBox ((100:ℚ), 150, 200, 170) 1224 1584 612 792).1 + 5 = 55 ∧
    (105:ℚ) ≠ 55 ∧
    (scaleBox ((100:ℚ), 150, 200, 170) 1224 1584 612 792).2.1 + 5 = 712 ∧
    (627:ℚ) ≠ 712 := by
  refine ⟨?_, by norm_num [scaleBox], by norm_num, by norm_num [scaleBox], by norm_num⟩
  have h1 : lowerAscii "first_name" = "first_name" := by decide
  have h2 : valueToInsert "first_name" janePersonal "" = "Jane" := by decide
  simp only [fillTemplate, List.flatMap_cons, List.flatMap_nil, fieldOps, h1, h2, acquireFont]
  norm_num
  simp

/-- C2 counterexample: an invocation in which detection parsed nothing (the
fallback set is substituted) run against an all-empty personal record with
no signature draws nothing at all, yet the surfaced signal is 'complete':
the signal is the absence of exceptions, not basic-set coverage. -/
theorem processPdf_complete_without_basic_fields_cex :
    processPdfSignal (callDonutFields DonutResult.other) = ProcessingResult.complete ∧
    fillTemplate (callDonutFields DonutResult.other) emptyPersonalInfo none
      (fun _ => false) 792 "" (FontFetchResult.ok true) = [] := by
  have h0 : callDonutFields DonutResult.other = basicFallbackFields := by
    norm_num [callDonutFields, parseDonut, basicFallbackFields]
  constructor
  · rw [h0]
    norm_num [processPdfSignal, basicFallbackFields]
  · rw [h0]
    have h1 : lowerAscii "first_name" = "first_name" := by decide
    have h2 : lowerAscii "last_name" = "last_name" := by decide
    have h3 : lowerAscii "phone" = "phone" := by decide
    have h4 : lowerAscii "address" = "address" := by decide
    have h5 : lowerAscii "signature" = "signature" := by decide
    have v1 : valueToInsert "first_name" emptyPersonalInfo "" = "" := by decide
    have v2 : valueToInsert "last_name" emptyPersonalInfo "" = "" := by decide
    have v3 : valueToInsert "phone" emptyPersonalInfo "" = "" := by decide
    have v4 : valueToInsert "address" emptyPersonalInfo "" = "" := by decide
    simp only [fillTemplate, basicFallbackFields, List.flatMap_cons, List.flatMap_nil,
      fieldOps, h1, h2, h3, h4, h5, v1, v2, v3, v4, acquireFont]
    simp

/-- C2 amended: the completeness signal surfaced by processPdf is 'complete'
exactly when the detection call returned a nonempty field list (the only
thrown condition after detection); it performs no check of which canonical
fields were resolved or drawn. -/
theorem processPdfSignal_complete_iff_nonempty (detectedFields : List DetectedField) :
    processPdfSignal detectedFields = ProcessingResult.complete ↔ detectedFields ≠ [] := by
  cases detectedFields <;> simp [processPdfSignal]

/-- C3 counterexample: the nonempty credential "bad_token" does not match
the hf_* shape, yet detectFields proceeds to the network call (and callDonut
performs no validation at all): no authentication failure precedes the
request. -/
theorem malformed_token_reaches_network_cex :
    matchesHfTokenShape "bad_token" = false ∧
    detectFieldsGate "bad_token" = DetectStep.networkCall "bad_token" ∧
    callDonutGate "bad_token" = DetectStep.networkCall "bad_token" := by
  refine ⟨by decide, by decide, rfl⟩

/-- C3 amended: the only pre-network credential check is detectFields's
falsy test — a call fails before the network exactly when the credential is
the empty string; the hf_* shape is never inspected, and callDonut reaches
the network for every credential. -/
theorem credential_gate_only_checks_empty (t : String) :
    ((∃ msg, detectFieldsGate t = DetectStep.authError msg) ↔ t = "") ∧
    callDonutGate t = DetectStep.networkCall t := by
  constructor
  · by_cases h : t = "" <;> simp [detectFieldsGate, h]
  · rfl

/-- C4 counterexample: a signature box of width 10 pt is drawn with width
min(10 - 10, 150) = 0, not the fixed maximum 150: the inset is subtracted
first and the min picks the smaller operand (the requested image width
plays no role in the computation). -/
theorem signature_width10_clips_to_zero_cex :
    fieldOps ⟨"signature", "", (100, 400, 110, 450), 9/10⟩ emptyPersonalInfo (some "sig")
        (fun _ => true) 792 "" PdfFont.custom = [DrawOp.image 105 337 0 40] ∧
    (0:ℚ) ≠ 150 := by
  constructor
  · have h1 : lowerAscii "signature" = "signature" := by decide
    simp only [fieldOps, h1]
    norm_num [min_def]
  · norm_num

/-- C4 amended: a drawn signature's size is min(boxWidth - 10, 150) by
min(boxHeight - 10, 50): at most the fixed maxima 150×50 pt and at most the
box dimensions minus the 10 pt total inset; a 10 pt-wide box therefore
yields drawn width 0, not 150, and the signature image's own size is
ignored. -/
theorem signature_clip_bounds (lbl v : String) (c x1 y1 x2 y2 : ℚ)
    (p : PersonalInfo) (s : String) (dec : String → Bool) (pageH : ℚ) (today : String)
    (font : PdfFont) (hlbl : lowerAscii lbl = "signature") (hdec : dec s = true) :
    fieldOps ⟨lbl, v, (x1, y1, x2, y2), c⟩ p (some s) dec pageH today font =
      [DrawOp.image (x1 + 5) (pageH - y2 - 5)
        (min (x2 - x1 - 10) 150) (min (y2 - y1 - 10) 50)] ∧
    min (x2 - x1 - 10) 150 ≤ 150 ∧ min (y2 - y1 - 10) 50 ≤ 50 ∧
    min (x2 - x1 - 10) 150 ≤ x2 - x1 - 10 ∧ min (y2 - y1 - 10) 50 ≤ y2 - y1 - 10 := by
  refine ⟨?_, min_le_right _ _, min_le_right _ _, min_le_left _ _, min_le_left _ _⟩
  simp [fieldOps, hlbl, hdec]

/-- Witness for the amended C4 at a 200-pt-wide signature box, where the
150 pt maximum is the binding bound. -/
theorem signature_clip_bounds_witness :
    fieldOps ⟨"signature", "", ((100:ℚ), 400, 300, 460), 9/10⟩ emptyPersonalInfo (some "s")
        (fun _ => true) 792 "" PdfFont.custom =
      [DrawOp.image ((100:ℚ) + 5) (792 - 460 - 5)
        (min ((300:ℚ) - 100 - 10) 150) (min ((460:ℚ) - 400 - 10) 50)] ∧
    min ((300:ℚ) - 100 - 10) 150 ≤ 150 ∧ min ((460:ℚ) - 400 - 10) 50 ≤ 50 ∧
    min ((300:ℚ) - 100 - 10) 150 ≤ 300 - 100 - 10 ∧
    min ((460:ℚ) - 400 - 10) 50 ≤ 460 - 400 - 10 :=
  signature_clip_bounds "signature" "" (9/10) 100 400 300 460 emptyPersonalInfo "s"
    (fun _ => true) 792 "" PdfFont.custom (by decide) rfl

/-- C5 counterexample: 'First_Name' and 'FIRSTNAME' both resolve to the
record's first name, but 'first name' (with a space) resolves to nothing:
the switch lower-cases only and has no case label with a space, so
canonicalization is not format-insensitive. -/
theorem space_label_not_canonicalized_cex :
    valueToInsert "First_Name" janePersonal "" = "Jane" ∧
    valueToInsert "FIRSTNAME" janePersonal "" = "Jane" ∧
    valueToInsert "first name" janePersonal "" = "" ∧
    ("Jane" : String) ≠ "" := by
  refine ⟨by decide, by decide, by decide, by decide⟩

/-- C5 amended: label canonicalization lower-cases the raw label and
matches it against the enumerated case labels (which include first_name and
firstname but no spaced form), so 'First_Name' and 'FIRSTNAME' resolve to
the first-name value while 'first name' resolves to nothing; underscores
and spaces are not stripped. -/
theorem canonicalization_lowercases_only (p : PersonalInfo) (today : String) :
    valueToInsert "First_Name" p today = p.firstName ∧
    valueToInsert "FIRSTNAME" p today = p.firstName ∧
    valueToInsert "first name" p today = "" := by
  refine ⟨rfl, rfl, rfl⟩

/-- C6 counterexample: the fallback result of a bbox-less response equals
the five fixed fields, is equal to what a genuine five-field detection
produces (same DetectedField type, no flag of any kind), and the downstream
signal computed from it is not 'incomplete': the degraded mode is not
distinguishable and is reported 'complete'. -/
theorem fallback_reported_complete_cex :
    callDonutFields DonutResult.other = basicFallbackFields ∧
    callDonutFields genuineFiveFieldResponse = callDonutFields DonutResult.other ∧
    processPdfSignal (callDonutFields DonutResult.other) ≠ ProcessingResult.incomplete := by
  have h0 : callDonutFields DonutResult.other = basicFallbackFields := by
    norm_num [callDonutFields, parseDonut, basicFallbackFields]
  have hg : callDonutFields genuineFiveFieldResponse = basicFallbackFields := by
    have h1 : lowerAscii "first_name" = "first_name" := by decide
    have h2 : lowerAscii "last_name" = "last_name" := by decide
    have h3 : lowerAscii "phone" = "phone" := by decide
    have h4 : lowerAscii "address" = "address" := by decide
    have h5 : lowerAscii "signature" = "signature" := by decide
    simp only [callDonutFields, parseDonut, genuineFiveFieldResponse, confOrDefault,
      List.filterMap, h1, h2, h3, h4, h5, basicFallbackFields]
    norm_num
  refine ⟨h0, hg.trans h0.symm, ?_⟩
  rw [h0]
  norm_num [processPdfSignal, basicFallbackFields]
  decide

/-- C6 amended: if parsing the upstream response yields zero fields, the
detector substitutes exactly the fixed five-field fallback set at the
hard-coded boxes; but the result carries no wasFallback flag, and the
downstream signal computed on it is 'complete', not 'incomplete'. -/
theorem fallback_substitution_on_empty_parse (resp : DonutResult)
    (h : parseDonut resp = []) :
    callDonutFields resp = basicFallbackFields ∧
    processPdfSignal (callDonutFields resp) = ProcessingResult.complete := by
  have hc : callDonutFields resp = basicFallbackFields := by
    simp [callDonutFields, h]
  refine ⟨hc, ?_⟩
  rw [hc]
  norm_num [processPdfSignal, basicFallbackFields]

/-- Witness for the amended C6 at the non-array, non-object response, whose
parse is empty by computation. -/
theorem fallback_substitution_on_empty_parse_witness :
    callDonutFields DonutResult.other = basicFallbackFields ∧
    processPdfSignal (callDonutFields DonutResult.other) = ProcessingResult.complete :=
  fallback_substitution_on_empty_parse DonutResult.other rfl

/-- C8: for every failing font fetch (network error, non-success HTTP
status, or a success whose bytes embedFont rejects), the compositor falls
back to HelveticaOblique, the failure never propagates, and the compositing
run still produces output bytes. -/
theorem font_fetch_failure_never_raises (r : FontFetchResult)
    (h : r ≠ FontFetchResult.ok true)
    (fields : List DetectedField) (p : PersonalInfo) (sig : Option String)
    (dec : String → Bool) (pageH : ℚ) (today : String) :
    acquireFont r = PdfFont.helveticaOblique ∧
    (fillTemplateRun true fields p sig dec pageH today r).isSome = true := by
  constructor
  · cases r with
    | ok b =>
      cases b with
      | false => rfl
      | true => exact absurd rfl h
    | httpError s => rfl
    | networkError => rfl
  · rfl

/-- Witness for C8 at a simulated network failure over the fallback field
set. -/
theorem font_fetch_failure_never_raises_witness :
    acquireFont FontFetchResult.networkError = PdfFont.helveticaOblique ∧
    (fillTemplateRun true basicFallbackFields emptyPersonalInfo none (fun _ => false) 792 ""
      FontFetchResult.networkError).isSome = true :=
  font_fetch_failure_never_raises FontFetchResult.networkError (by decide)
    basicFallbackFields emptyPersonalInfo none (fun _ => false) 792 ""

/-- C9: a field whose resolved value is unavailable — a non-signature label
whose switched value is the empty string (unknown label, or a recognized
kind with no data in the record), or a signature field with no signature
asset — contributes no draw operation at all: it is skipped silently, never
drawn as empty text. -/
theorem null_value_fields_skipped (f : DetectedField) (p : PersonalInfo)
    (sig : Option String) (dec : String → Bool) (pageH : ℚ) (today : String)
    (font : PdfFont)
    (h : (lowerAscii f.field ≠ "signature" ∧ valueToInsert f.field p today = "") ∨
         (lowerAscii f.field = "signature" ∧ sig = none)) :
    fieldOps f p sig dec pageH today font = [] := by
  obtain ⟨fl, fv, ⟨b1, b2, b3, b4⟩, fc⟩ := f
  rcases h with ⟨hn, hv⟩ | ⟨hs, hsig⟩
  · simp only at hn hv
    simp [fieldOps, hn, hv]
  · simp only at hs hsig
    simp [fieldOps, hs, hsig]

/-- Witness for C9 at an unknown label over the empty record. -/
theorem null_value_fields_skipped_witness :
    fieldOps ⟨"unknown_label", "", ((0:ℚ), 0, 0, 0), 9/10⟩ emptyPersonalInfo none
      (fun _ => false) 792 "" PdfFont.custom = [] :=
  null_value_fields_skipped ⟨"unknown_label", "", ((0:ℚ), 0, 0, 0), 9/10⟩ emptyPersonalInfo
    none (fun _ => false) 792 "" PdfFont.custom (Or.inl ⟨by decide, by decide⟩)

/-- C10: for every upstream response shape — empty, unparsable, or
bbox-less included — the detection result after the unconditional fallback
substitution is nonempty, so the caller's zero-fields error branch
(`detectedFields.length === 0`) is unreachable. -/
theorem callDonutFields_never_empty (resp : DonutResult) :
    callDonutFields resp ≠ [] ∧ (callDonutFields resp).isEmpty = false := by
  have h : callDonutFields resp ≠ [] := by
    unfold callDonutFields
    cases hp : (parseDonut resp).isEmpty
    · simp [hp]
      intro hc
      rw [hc] at hp
      simp at hp
    · simp [basicFallbackFields]
  refine ⟨h, ?_⟩
  cases hc : callDonutFields resp with
  | nil => exact absurd hc h
  | cons a l => rfl
